import Mathlib

/-!
Verification of the simulation core of `src/main.rs` (a tcod roguelike):
dungeon generation (`make_map`, `create_room`, tunnels, `place_objects`),
the occupant model (`Object`), the collision test (`is_blocked`), the
movement resolver (`move_by`), the explored-memory update performed by
`render_all`, and the game loop's FOV-recompute flag.

The embedding is a direct shallow translation of the Rust source:
mutation becomes state passing, `rand` draws become reads from an explicit
stream of values threaded through the generator, and panicking index
expressions become total `getD` accesses that are only ever used in bounds
in the theorems below.
-/

namespace Roguelike

/-- Color from the tcod library: an RGB triple.  Opaque to the core logic;
the named constants below carry tcod's documented channel values. -/
structure Color where
  r : Nat
  g : Nat
  b : Nat
deriving DecidableEq, Repr

def WHITE : Color := ⟨255, 255, 255⟩

def DESATURATED_GREEN : Color := ⟨63, 127, 63⟩

def DARK_RED : Color := ⟨191, 0, 0⟩

/-- `struct Object` from the source: a generic positioned, renderable
entity (the player, a monster, ...). -/
structure Object where
  x : Int
  y : Int
  char : Char
  color : Color
  name : String
  blocks : Bool
  alive : Bool
deriving DecidableEq, Repr

/-- `Object::new`: note that `alive` starts `false`. -/
def Object.new (x y : Int) (char : Char) (name : String) (color : Color)
    (blocks : Bool) : Object :=
  { x := x, y := y, char := char, color := color, name := name
    blocks := blocks, alive := false }

def Object.pos (o : Object) : Int × Int := (o.x, o.y)

def Object.set_pos (o : Object) (x y : Int) : Object := { o with x := x, y := y }

/-- Stand-in value for `Object` lookups; the Rust source panics on an
out-of-range index, and every use below stays in range. -/
def defaultObject : Object := Object.new 0 0 ' ' "" ⟨0, 0, 0⟩ false

/-- `struct Tile` (the source spells the opacity flag `block_site`). -/
structure Tile where
  blocked : Bool
  block_site : Bool
  explored : Bool
deriving DecidableEq, Repr

/-- `Tile::empty()`: a floor tile. -/
def Tile.empty : Tile := ⟨false, false, false⟩

/-- `Tile::wall()`. -/
def Tile.wall : Tile := ⟨true, true, false⟩

/-- `struct Rect`, the generation-time room rectangle. -/
structure Rect where
  x1 : Int
  y1 : Int
  x2 : Int
  y2 : Int
deriving DecidableEq, Repr

def Rect.new (x y w h : Int) : Rect := ⟨x, y, x + w, y + h⟩

/-- `Rect::center`; all rectangles produced by the generator have
nonnegative coordinates, where Lean's `Int` division agrees with Rust's. -/
def Rect.center (r : Rect) : Int × Int := ((r.x1 + r.x2) / 2, (r.y1 + r.y2) / 2)

/-- `Rect::intersects_with`: inclusive-bounds overlap test. -/
def Rect.intersects_with (r other : Rect) : Bool :=
  ((r.x1 ≤ other.x2 && r.x2 ≥ other.x1) && (r.y1 ≤ other.y2 && r.y2 ≥ other.y1))

def defaultRect : Rect := Rect.new 0 0 0 0

/-- `type Map = Vec<Vec<Tile>>`, indexed `map[x][y]`. -/
abbrev Map := List (List Tile)

def MAP_WIDTH : Int := 80
def MAP_HEIGHT : Int := 45
def ROOM_MAX_SIZE : Int := 10
def ROOM_MIN_SIZE : Int := 6
def MAX_ROOMS : Int := 30
def MAX_ROOM_MONSTERS : Int := 3
def PLAYER : Nat := 0

/-- `map[x as usize][y as usize]` as a total read.  The source panics out
of range; the default is never reached by the theorems below, which stay
inside the 80×45 grid (out-of-range reads yield `Tile.wall`, which only
makes the refutations of reachability stronger). -/
def tileAt (map : Map) (x y : Int) : Tile :=
  (map.getD x.toNat []).getD y.toNat Tile.wall

/-- `map[x as usize][y as usize] = t` as a total write (no-op out of range,
like `List.set`). -/
def setTile (map : Map) (x y : Int) (t : Tile) : Map :=
  map.set x.toNat ((map.getD x.toNat []).set y.toNat t)

/-- The state of the `rand` source: an explicit stream of drawn raw values
and a cursor.  `rand::thread_rng()` hands out values of this stream. -/
structure RngState where
  stream : Nat → Nat
  idx : Nat

def RngState.next (s : RngState) : Nat × RngState :=
  (s.stream s.idx, ⟨s.stream, s.idx + 1⟩)

/-- Model of `gen_range(lo, hi)`: the next raw value mapped uniformly into
`[lo, hi)`.  The source panics when `lo ≥ hi`; every call site below has
`lo < hi`. -/
def gen_range (lo hi : Int) (s : RngState) : Int × RngState :=
  let vs := s.next
  (lo + Int.ofNat (vs.1 % (hi - lo).toNat), vs.2)

/-- Model of `rand::random::<bool>()`: a uniform coin read off the stream. -/
def gen_bool (s : RngState) : Bool × RngState :=
  let vs := s.next
  (vs.1 % 2 == 1, vs.2)

/-- Model of `rand::random::<f32>() < 0.8`: the 80%-weighted coin deciding
the monster kind, read off the stream (floating point itself is opaque;
only the Boolean outcome of the comparison feeds back into the core). -/
def gen_chance80 (s : RngState) : Bool × RngState :=
  let vs := s.next
  (vs.1 % 100 < 80, vs.2)

/-- `is_blocked`: tile flag first, then any blocking object at `(x, y)`. -/
def is_blocked (x y : Int) (map : Map) (objects : List Object) : Bool :=
  if (tileAt map x y).blocked then true
  else objects.any fun o => o.blocks && o.pos == (x, y)

/-- `move_by`: move object `id` by `(dx, dy)` unless the target is blocked.
The source indexes `objects[id]` (panicking out of range); here the
out-of-range case is a no-op and every use is in range. -/
def move_by (id : Nat) (dx dy : Int) (map : Map) (objects : List Object) :
    List Object :=
  match objects[id]? with
  | none => objects
  | some o =>
    if !(is_blocked (o.pos.1 + dx) (o.pos.2 + dy) map objects) then
      objects.set id (o.set_pos (o.pos.1 + dx) (o.pos.2 + dy))
    else objects

/-- `main`: the player object, with `alive` set to `true` right after
construction. -/
def player0 : Object :=
  { Object.new 0 0 '@' "player" WHITE true with alive := true }

/-- `main`: `let mut objects = vec![player]`. -/
def initial_objects : List Object := [player0]

/-- `main`, line 199: `let previous_player_position = (-1, -1);`.  The
binding sits outside the game loop and is never reassigned. -/
def previous_player_position : Int × Int := (-1, -1)

/-- `main`, line 205: the per-tick FOV-recompute flag,
`previous_player_position != (objects[PLAYER].x, objects[PLAYER].y)`. -/
def fov_recompute (objects : List Object) : Bool :=
  previous_player_position !=
    ((objects.getD PLAYER defaultObject).x, (objects.getD PLAYER defaultObject).y)

section MovementLemmas

theorem is_blocked_eq_false_iff (x y : Int) (map : Map) (objects : List Object) :
    is_blocked x y map objects = false ↔
      (tileAt map x y).blocked = false ∧
        ∀ o ∈ objects, ¬(o.blocks = true ∧ o.pos = (x, y)) := by
  unfold is_blocked
  split
  · simp_all
  · rename_i htile
    simp only [Bool.not_eq_true] at htile
    simp only [htile, List.any_eq_false, Bool.and_eq_true, beq_iff_eq, Object.pos,
      true_and, not_and]

end MovementLemmas

/-! Concrete two-tile world used to exercise the movement resolver: the
player at `(0, 0)` and a dead (but `blocks = true`) orc at `(1, 0)`, both
tiles floor. -/

def cmap5 : Map := [[Tile.empty], [Tile.empty]]

def deadOrc5 : Object :=
  { Object.new 1 0 'o' "orc" DESATURATED_GREEN true with alive := false }

def cobjs5 : List Object := [player0, deadOrc5]

/-- C5: the claim says the occupancy test treats `(x, y)` as blocked by an
occupant only when an occupant OTHER than the mover with
`blocks_movement = true` AND `is_alive = true` sits there.  Counterexample:
at `(1, 0)` the tile is floor and the only occupant sitting there is not
alive (and the mover, the player, is elsewhere), yet `is_blocked` reports
the square blocked — the source never consults `alive`. -/
theorem C5_counterexample :
    (tileAt cmap5 1 0).blocked = false ∧
    (∀ o ∈ cobjs5, ¬(o.blocks = true ∧ o.alive = true ∧ o.pos = (1, 0))) ∧
    is_blocked 1 0 cmap5 cobjs5 = true := by
  refine ⟨by decide, by decide, by decide⟩

/-- C5 (amended): `is_blocked (x, y)` holds iff the tile's `blocked` flag is
set or ANY occupant with `blocks = true` — alive or dead, the moving
occupant included — sits at `(x, y)`. -/
theorem C5_is_blocked_characterization (x y : Int) (map : Map)
    (objects : List Object) :
    is_blocked x y map objects = true ↔
      (tileAt map x y).blocked = true ∨
        ∃ o ∈ objects, o.blocks = true ∧ o.pos = (x, y) := by
  rcases h : is_blocked x y map objects with hf | ht
  · rw [is_blocked_eq_false_iff] at h
    simp only [Bool.false_eq_true, false_iff, not_or]
    refine ⟨by simp [h.1], ?_⟩
    rintro ⟨o, ho, hb, hp⟩
    exact h.2 o ho ⟨hb, hp⟩
  · simp only [true_iff]
    by_contra hcon
    push_neg at hcon
    have : is_blocked x y map objects = false := by
      rw [is_blocked_eq_false_iff]
      refine ⟨by simpa using hcon.1, ?_⟩
      intro o ho hx
      exact absurd hx.2 (hcon.2 o ho hx.1)
    simp [this] at h

/-- C6: the claim says the move succeeds (position overwritten) whenever the
target tile is not blocked and no OTHER blocking, ALIVE occupant sits there.
Counterexample: the player moves right onto floor tile `(1, 0)` occupied
only by a dead orc; the claim demands the move be applied, but the source
rejects it and leaves every object unchanged. -/
theorem C6_counterexample :
    (tileAt cmap5 1 0).blocked = false ∧
    (∀ o ∈ cobjs5, ¬(o.blocks = true ∧ o.alive = true ∧ o.pos = (1, 0))) ∧
    move_by PLAYER 1 0 cmap5 cobjs5 = cobjs5 := by
  refine ⟨by decide, by decide, by decide⟩

/-- C6 (amended): `move_by` is all-or-nothing — when the target square is
blocked (tile flag, or any blocking occupant, dead or alive, the mover
included) it returns the object list unchanged; otherwise the only change
is that object `id`'s position is overwritten with the target. -/
theorem C6_move_by_all_or_nothing (id : Nat) (dx dy : Int) (map : Map)
    (objects : List Object) (h : id < objects.length) :
    (is_blocked (objects[id].x + dx) (objects[id].y + dy) map objects = true →
      move_by id dx dy map objects = objects) ∧
    (is_blocked (objects[id].x + dx) (objects[id].y + dy) map objects = false →
      move_by id dx dy map objects =
        objects.set id
          (objects[id].set_pos (objects[id].x + dx) (objects[id].y + dy))) := by
  unfold move_by
  rw [List.getElem?_eq_getElem h]
  constructor <;> intro hb <;> simp [hb, Object.pos]

/-- Witness for `C6_move_by_all_or_nothing` at the concrete two-tile world. -/
theorem C6_move_by_all_or_nothing_witness :
    (is_blocked (cobjs5[0].x + 1) (cobjs5[0].y + 0) cmap5 cobjs5 = true →
      move_by 0 1 0 cmap5 cobjs5 = cobjs5) ∧
    (is_blocked (cobjs5[0].x + 1) (cobjs5[0].y + 0) cmap5 cobjs5 = false →
      move_by 0 1 0 cmap5 cobjs5 =
        cobjs5.set 0 (cobjs5[0].set_pos (cobjs5[0].x + 1) (cobjs5[0].y + 0))) :=
  C6_move_by_all_or_nothing 0 1 0 cmap5 cobjs5 (by decide)

/-- C10: a zero-displacement `move_by` of any blocking occupant is always
rejected, because `is_blocked` counts the moving occupant itself as a
blocker at its own square. -/
theorem C10_zero_move_rejected (id : Nat) (map : Map) (objects : List Object)
    (h : id < objects.length) (hb : objects[id].blocks = true) :
    move_by id 0 0 map objects = objects := by
  unfold move_by
  rw [List.getElem?_eq_getElem h]
  have hblk : is_blocked (objects[id].pos.1 + 0) (objects[id].pos.2 + 0) map
      objects = true := by
    unfold is_blocked
    split
    · rfl
    · rw [List.any_eq_true]
      exact ⟨objects[id], List.getElem_mem h, by simp [hb, Object.pos]⟩
  simp only [Object.pos, Int.add_zero] at hblk
  simp [Object.pos, hblk]

/-- Witness for `C10_zero_move_rejected`: the player (a blocking occupant)
cannot move by `(0, 0)`. -/
theorem C10_zero_move_rejected_witness :
    move_by 0 0 0 cmap5 cobjs5 = cobjs5 :=
  C10_zero_move_rejected 0 cmap5 cobjs5 (by decide) (by decide)

/-- C4: the claim says the FOV is recomputed iff the player moved since the
previous tick.  In the source, `previous_player_position` is bound once to
`(-1, -1)` before the game loop and never reassigned, so the recompute flag
compares every tick's player position against `(-1, -1)`: it is `true` on
every tick (the player's coordinates are nonnegative once placed), whether
or not the player moved. -/
theorem C4_fov_recompute_every_tick (objects : List Object)
    (h : 0 ≤ (objects.getD PLAYER defaultObject).x) :
    fov_recompute objects = true := by
  unfold fov_recompute previous_player_position
  rw [bne_iff_ne]
  intro hcon
  rw [Prod.mk.injEq] at hcon
  omega

/-- Witness for `C4_fov_recompute_every_tick`: a tick in which the player
sits at `(0, 0)` — wherever it sat the tick before — still recomputes. -/
theorem C4_fov_recompute_every_tick_witness :
    0 ≤ ((initial_objects.getD PLAYER defaultObject).x) ∧
      fov_recompute initial_objects = true :=
  ⟨by decide, C4_fov_recompute_every_tick initial_objects (by decide)⟩

/-! ## Dungeon generator (`make_map` and helpers) -/

/-- Inclusive-lo, exclusive-hi integer range, the Rust `lo..hi` iterator. -/
def intRange (lo hi : Int) : List Int :=
  (List.range (hi - lo).toNat).map fun n => lo + (n : Int)

/-- `create_room`: carve the rectangle's interior (edges excluded) to
floor. -/
def create_room (room : Rect) (map : Map) : Map :=
  (intRange (room.x1 + 1) room.x2).foldl
    (fun m x =>
      (intRange (room.y1 + 1) room.y2).foldl (fun m2 y => setTile m2 x y Tile.empty) m)
    map

/-- `create_h_tunnel`: carve the horizontal run `min x1 x2 ..= max x1 x2`
at height `y`. -/
def create_h_tunnel (x1 x2 y : Int) (map : Map) : Map :=
  (intRange (min x1 x2) (max x1 x2 + 1)).foldl
    (fun m x => setTile m x y Tile.empty) map

/-- `create_v_tunnel`. -/
def create_v_tunnel (y1 y2 x : Int) (map : Map) : Map :=
  (intRange (min y1 y2) (max y1 y2 + 1)).foldl
    (fun m y => setTile m x y Tile.empty) map

/-- An orc as built in `place_objects` (`alive` set to `true` right after). -/
def mk_orc (x y : Int) : Object :=
  { Object.new x y 'o' "orc" DESATURATED_GREEN true with alive := true }

/-- A vampire as built in `place_objects`. -/
def mk_vampire (x y : Int) : Object :=
  { Object.new x y 'V' "Vampire" DARK_RED true with alive := true }

/-- The `for _ in 0..num_monsters` body of `place_objects`: sample a spot in
the room interior; if it is free right now, draw the kind coin and append
the monster, otherwise skip it (no retry). -/
def place_loop (room : Rect) (map : Map) :
    Nat → List Object → RngState → List Object × RngState
  | 0, objects, s => (objects, s)
  | fuel + 1, objects, s =>
    let xs := gen_range (room.x1 + 1) room.x2 s
    let ys := gen_range (room.y1 + 1) room.y2 xs.2
    if !(is_blocked xs.1 ys.1 map objects) then
      let ks := gen_chance80 ys.2
      let monster := if ks.1 then mk_orc xs.1 ys.1 else mk_vampire xs.1 ys.1
      place_loop room map fuel (objects ++ [monster]) ks.2
    else
      place_loop room map fuel objects ys.2

/-- `place_objects`: draw the monster count in `[0, MAX_ROOM_MONSTERS]`,
then run the placement loop. -/
def place_objects (room : Rect) (map : Map) (objects : List Object)
    (s : RngState) : List Object × RngState :=
  let ns := gen_range 0 (MAX_ROOM_MONSTERS + 1) s
  place_loop room map ns.1.toNat objects ns.2

/-- The four draws opening each `make_map` loop iteration: room width and
height in `[ROOM_MIN_SIZE, ROOM_MAX_SIZE]`, then an origin keeping the
rectangle inside the grid. -/
def sample_room (s : RngState) : Rect × RngState :=
  let ws := gen_range ROOM_MIN_SIZE (ROOM_MAX_SIZE + 1) s
  let hs := gen_range ROOM_MIN_SIZE (ROOM_MAX_SIZE + 1) ws.2
  let xs := gen_range 0 (MAP_WIDTH - ws.1) hs.2
  let ys := gen_range 0 (MAP_HEIGHT - hs.1) xs.2
  (Rect.new xs.1 ys.1 ws.1 hs.1, ys.2)

/-- Generator state threaded through `make_map`'s loop: the map being
carved, the `rooms` vector, the `objects` vector, and the RNG. -/
structure GenState where
  map : Map
  rooms : List Rect
  objects : List Object
  rng : RngState

/-- One iteration of `make_map`'s `for _ in 0..MAX_ROOMS` loop.  Note two
source facts the theorems below turn on: `rooms.push(new_room)` sits OUTSIDE
the acceptance test, so rejected candidates are recorded too (and become
`rooms[rooms.len() - 1]` for the next accepted room's tunnel); and
`place_objects` runs before the first room's center is written into
`objects[PLAYER]`. -/
def make_map_step (st : GenState) : GenState :=
  let rs := sample_room st.rng
  let new_room := rs.1
  let is_valid_location :=
    !(st.rooms.any fun other_room => new_room.intersects_with other_room)
  if is_valid_location then
    let map1 := create_room new_room st.map
    let os := place_objects new_room map1 st.objects rs.2
    let c := new_room.center
    if st.rooms.isEmpty then
      { map := map1
        rooms := st.rooms ++ [new_room]
        objects := os.1.set PLAYER ((os.1.getD PLAYER defaultObject).set_pos c.1 c.2)
        rng := os.2 }
    else
      let prev := (st.rooms.getLastD defaultRect).center
      let cb := gen_bool os.2
      let map2 :=
        if cb.1 then
          create_v_tunnel prev.2 c.2 c.1 (create_h_tunnel prev.1 c.1 prev.2 map1)
        else
          create_h_tunnel prev.1 c.1 c.2 (create_v_tunnel prev.2 c.2 prev.1 map1)
      { map := map2, rooms := st.rooms ++ [new_room], objects := os.1, rng := cb.2 }
  else
    { st with rooms := st.rooms ++ [new_room], rng := rs.2 }

def make_map_loop : Nat → GenState → GenState
  | 0, st => st
  | n + 1, st => make_map_loop n (make_map_step st)

/-- The all-wall 80×45 starting map. -/
def initial_map : Map :=
  List.replicate MAP_WIDTH.toNat (List.replicate MAP_HEIGHT.toNat Tile.wall)

/-- `make_map`: run exactly `MAX_ROOMS` loop iterations over the all-wall
map.  The Rust function returns the map and mutates `objects` in place; the
embedding returns the whole final generator state. -/
def make_map (objects : List Object) (s : RngState) : GenState :=
  make_map_loop MAX_ROOMS.toNat
    { map := initial_map, rooms := [], objects := objects, rng := s }

/-- Modelled from the spec: the loop iteration as the spec describes it, for
refinement comparison with `make_map_step`.  It differs in exactly one
point — "Reject the candidate room ... if it intersects any previously
accepted room", so `rooms` records only ACCEPTED rooms (the push sits inside
the acceptance branch), and tunnels therefore always run to the
immediately-preceding accepted room's center. -/
def make_map_spec_step (st : GenState) : GenState :=
  let rs := sample_room st.rng
  let new_room := rs.1
  let is_valid_location :=
    !(st.rooms.any fun other_room => new_room.intersects_with other_room)
  if is_valid_location then
    let map1 := create_room new_room st.map
    let os := place_objects new_room map1 st.objects rs.2
    let c := new_room.center
    if st.rooms.isEmpty then
      { map := map1
        rooms := st.rooms ++ [new_room]
        objects := os.1.set PLAYER ((os.1.getD PLAYER defaultObject).set_pos c.1 c.2)
        rng := os.2 }
    else
      let prev := (st.rooms.getLastD defaultRect).center
      let cb := gen_bool os.2
      let map2 :=
        if cb.1 then
          create_v_tunnel prev.2 c.2 c.1 (create_h_tunnel prev.1 c.1 prev.2 map1)
        else
          create_h_tunnel prev.1 c.1 c.2 (create_v_tunnel prev.2 c.2 prev.1 map1)
      { map := map2, rooms := st.rooms ++ [new_room], objects := os.1, rng := cb.2 }
  else
    { st with rng := rs.2 }

def make_map_spec_loop : Nat → GenState → GenState
  | 0, st => st
  | n + 1, st => make_map_spec_loop n (make_map_spec_step st)

/-- Modelled from the spec: `make_map` with the spec's acceptance rule (see
`make_map_spec_step`). -/
def make_map_spec (objects : List Object) (s : RngState) : GenState :=
  make_map_spec_loop MAX_ROOMS.toNat
    { map := initial_map, rooms := [], objects := objects, rng := s }

/-- A raw-value stream backed by a list (`0` past its end). -/
def streamOf (l : List Nat) : RngState := ⟨fun n => l.getD n 0, 0⟩

/-- Stream A: room `(1,1,7,7)` accepted with no monsters; candidate
`(1,7,7,13)` rejected (it touches the first room); room `(1,20,7,26)`
accepted with no monsters and a vertical-first tunnel; every later
candidate is `(0,0,6,6)`, rejected. -/
def streamA : RngState := streamOf [0, 0, 1, 1, 0, 0, 0, 1, 7, 0, 0, 1, 20, 0, 0]

/-- Stream B: room `(1,1,7,7)` accepted; candidate `(1,7,7,13)` rejected;
candidate `(1,9,7,15)` touches only the REJECTED candidate, not the
accepted room; every later candidate is `(0,0,6,6)`, rejected. -/
def streamB : RngState := streamOf [0, 0, 1, 1, 0, 0, 0, 1, 7, 0, 0, 1, 9]

/-- Stream C: room `(1,1,7,7)` accepted with ONE monster, sampled exactly at
the room center `(4, 4)` — placed before the player is, so the player's
start is then written on top of it; every later candidate is rejected. -/
def streamC : RngState := streamOf [0, 0, 1, 1, 1, 2, 2, 0]

/-! ## Reachability over floor tiles -/

/-- 4-directional adjacency of grid squares. -/
def adjacent (p q : Int × Int) : Prop :=
  (p.1 = q.1 ∧ (q.2 = p.2 + 1 ∨ q.2 = p.2 - 1)) ∨
  (p.2 = q.2 ∧ (q.1 = p.1 + 1 ∨ q.1 = p.1 - 1))

/-- `Reaches map start t`: square `t` can be reached from `start` by
4-directional steps onto floor (`blocked = false`) squares. -/
inductive Reaches (map : Map) (start : Int × Int) : Int × Int → Prop
  | refl : Reaches map start start
  | step {q r : Int × Int} : Reaches map start q → adjacent q r →
      (tileAt map r.1 r.2).blocked = false → Reaches map start r

/-- If the whole row `y = k` is wall, no walk over floor squares crosses it
from above. -/
theorem Reaches.below_row {map : Map} {k : Int}
    (hwall : ∀ x : Int, (tileAt map x k).blocked = true)
    {p q : Int × Int} (hreach : Reaches map p q) (hp : p.2 < k) : q.2 < k := by
  induction hreach with
  | refl => exact hp
  | @step q r hpq hadj hfloor ih =>
    have hne : r.2 ≠ k := by
      intro he
      have hw := hwall r.1
      rw [← he] at hw
      rw [hfloor] at hw
      simp at hw
    rcases hadj with ⟨h1, h2 | h2⟩ | ⟨h1, h2 | h2⟩ <;> omega

theorem getD_map_general {α β : Type} (f : α → β) (d : α) :
    ∀ (l : List α) (n : Nat), (l.map f).getD n (f d) = f (l.getD n d)
  | [], _ => by simp [List.getD]
  | _ :: _, 0 => rfl
  | _ :: l, n + 1 => getD_map_general f d l n

theorem getD_replicate {α : Type} (a : α) :
    ∀ (k n : Nat), (List.replicate k a).getD n a = a
  | 0, _ => by simp [List.getD]
  | _ + 1, 0 => rfl
  | k + 1, n + 1 => getD_replicate a k n

/-- The tiles of map row `y`, one per column. -/
theorem row_all_wall (m : Map) (y : Nat)
    (h : m.map (fun col => col.getD y Tile.wall) = List.replicate 80 Tile.wall)
    (x : Int) : (m.getD x.toNat []).getD y Tile.wall = Tile.wall := by
  have h1 := getD_map_general (fun col => col.getD y Tile.wall) ([] : List Tile)
    m x.toNat
  rw [h] at h1
  have h2 : (([] : List Tile).getD y Tile.wall) = Tile.wall := by simp [List.getD]
  rw [h2] at h1
  rw [← h1]
  exact getD_replicate Tile.wall 80 x.toNat

set_option maxRecDepth 400000 in
/-- C1: the claim says every floor tile of a generated map is reachable from
the player's start by 4-directional movement over floor tiles.  With stream
A the code accepts room `(1,1,7,7)` (player start `(4,4)`), REJECTS the
candidate `(1,7,7,13)` — but still records it in `rooms` because the
`rooms.push(new_room)` sits outside the acceptance branch — and then accepts
room `(1,20,7,26)`, carving its corridor from the REJECTED candidate's
center `(4,10)` instead of from the accepted room.  Row `y = 8` stays solid
wall, so the floor tile `(4,23)` is unreachable from the start. -/
theorem C1_floor_tile_unreachable :
    ((make_map initial_objects streamA).objects.getD PLAYER defaultObject).pos
        = (4, 4) ∧
    (tileAt (make_map initial_objects streamA).map 4 23).blocked = false ∧
    ¬ Reaches (make_map initial_objects streamA).map (4, 4) (4, 23) := by
  refine ⟨by decide, by decide, ?_⟩
  intro hreach
  have hrow : (make_map initial_objects streamA).map.map
      (fun col => col.getD 8 Tile.wall) = List.replicate 80 Tile.wall := by decide
  have hwall : ∀ x : Int,
      (tileAt (make_map initial_objects streamA).map x 8).blocked = true := by
    intro x
    have hr := row_all_wall (make_map initial_objects streamA).map 8 hrow x
    simp only [tileAt, show ((8 : Int)).toNat = 8 from rfl]
    rw [hr]
    rfl
  have hlt := Reaches.below_row hwall hreach (by norm_num)
  norm_num at hlt

set_option maxRecDepth 400000 in
/-- C2: the claim says corridors always join the new room's center to the
center of the immediately-preceding ACCEPTED room, never a rejected
candidate's.  With stream A, `rooms[1] = (1,7,7,13)` was rejected (it
intersects the accepted `rooms[0]`), yet its center `(4,10)` is exactly
where the accepted third room's corridor ends: `(4,10)` is carved floor
while `(4,8)` — on the straight line to the accepted room's center
`(4,4)` — stays wall.  `make_map_spec`, which follows the spec's words,
carves `(4,8)` to floor on the same stream. -/
theorem C2_counterexample :
    ((make_map initial_objects streamA).rooms.getD 1 defaultRect).intersects_with
        ((make_map initial_objects streamA).rooms.getD 0 defaultRect) = true ∧
    ((make_map initial_objects streamA).rooms.getD 1 defaultRect).center
        = (4, 10) ∧
    (tileAt (make_map initial_objects streamA).map 4 10).blocked = false ∧
    (tileAt (make_map initial_objects streamA).map 4 8).blocked = true ∧
    (tileAt (make_map_spec initial_objects streamA).map 4 8).blocked = false := by
  exact ⟨by decide, by decide, by decide, by decide, by decide⟩

/-- C2 (amended): when a candidate is accepted and is not the first room, it
is carved and populated, and an L-shaped corridor is carved between its
center and the center of the immediately-preceding CANDIDATE
(`rooms[rooms.len() - 1]`, which may be a rejected one); the Boolean coin
drawn after placement picks horizontal-then-vertical carving when true and
vertical-then-horizontal when false. -/
theorem C2_corridor_to_last_candidate (st : GenState)
    (hvalid : st.rooms.any
      (fun other_room => (sample_room st.rng).1.intersects_with other_room)
        = false)
    (hne : st.rooms.isEmpty = false) :
    (make_map_step st).rooms = st.rooms ++ [(sample_room st.rng).1] ∧
    (make_map_step st).objects =
      (place_objects (sample_room st.rng).1
        (create_room (sample_room st.rng).1 st.map) st.objects
        (sample_room st.rng).2).1 ∧
    (make_map_step st).map =
      (if (gen_bool (place_objects (sample_room st.rng).1
            (create_room (sample_room st.rng).1 st.map) st.objects
            (sample_room st.rng).2).2).1 then
        create_v_tunnel (st.rooms.getLastD defaultRect).center.2
          (sample_room st.rng).1.center.2 (sample_room st.rng).1.center.1
          (create_h_tunnel (st.rooms.getLastD defaultRect).center.1
            (sample_room st.rng).1.center.1
            (st.rooms.getLastD defaultRect).center.2
            (create_room (sample_room st.rng).1 st.map))
      else
        create_h_tunnel (st.rooms.getLastD defaultRect).center.1
          (sample_room st.rng).1.center.1 (sample_room st.rng).1.center.2
          (create_v_tunnel (st.rooms.getLastD defaultRect).center.2
            (sample_room st.rng).1.center.2
            (st.rooms.getLastD defaultRect).center.1
            (create_room (sample_room st.rng).1 st.map))) := by
  unfold make_map_step
  simp [hvalid, hne]

/-- Concrete generator state for the `C2_corridor_to_last_candidate`
witness: one far-away recorded candidate, so the zero stream's candidate
`(0,0,6,6)` is accepted as a non-first room. -/
def stW2 : GenState :=
  { map := [], rooms := [Rect.new 20 20 6 6], objects := [], rng := streamOf [] }

/-- Witness for `C2_corridor_to_last_candidate` at `stW2`. -/
theorem C2_corridor_to_last_candidate_witness :
    (make_map_step stW2).rooms = stW2.rooms ++ [(sample_room stW2.rng).1] ∧
    (make_map_step stW2).objects =
      (place_objects (sample_room stW2.rng).1
        (create_room (sample_room stW2.rng).1 stW2.map) stW2.objects
        (sample_room stW2.rng).2).1 ∧
    (make_map_step stW2).map =
      (if (gen_bool (place_objects (sample_room stW2.rng).1
            (create_room (sample_room stW2.rng).1 stW2.map) stW2.objects
            (sample_room stW2.rng).2).2).1 then
        create_v_tunnel (stW2.rooms.getLastD defaultRect).center.2
          (sample_room stW2.rng).1.center.2 (sample_room stW2.rng).1.center.1
          (create_h_tunnel (stW2.rooms.getLastD defaultRect).center.1
            (sample_room stW2.rng).1.center.1
            (stW2.rooms.getLastD defaultRect).center.2
            (create_room (sample_room stW2.rng).1 stW2.map))
      else
        create_h_tunnel (stW2.rooms.getLastD defaultRect).center.1
          (sample_room stW2.rng).1.center.1 (sample_room stW2.rng).1.center.2
          (create_v_tunnel (stW2.rooms.getLastD defaultRect).center.2
            (sample_room stW2.rng).1.center.2
            (stW2.rooms.getLastD defaultRect).center.1
            (create_room (sample_room stW2.rng).1 stW2.map))) :=
  C2_corridor_to_last_candidate stW2 (by decide) (by decide)

set_option maxRecDepth 400000 in
/-- C3: the claim says a candidate is rejected iff it intersects a
previously ACCEPTED room, and that intersecting a previously rejected
candidate never causes rejection.  With stream B the third candidate
`rooms[2] = (1,9,7,15)` intersects no accepted room (`rooms[0]` is the only
accepted one) but does intersect the REJECTED candidate `rooms[1]`, and the
code rejects it: its interior square `(3,11)` stays wall, while
`make_map_spec` — following the spec's words — accepts and carves it. -/
theorem C3_counterexample :
    ((make_map initial_objects streamB).rooms.getD 2 defaultRect).intersects_with
        ((make_map initial_objects streamB).rooms.getD 0 defaultRect) = false ∧
    ((make_map initial_objects streamB).rooms.getD 2 defaultRect).intersects_with
        ((make_map initial_objects streamB).rooms.getD 1 defaultRect) = true ∧
    ((make_map initial_objects streamB).rooms.getD 1 defaultRect).intersects_with
        ((make_map initial_objects streamB).rooms.getD 0 defaultRect) = true ∧
    (tileAt (make_map initial_objects streamB).map 3 11).blocked = true ∧
    (tileAt (make_map_spec initial_objects streamB).map 3 11).blocked = false := by
  exact ⟨by decide, by decide, by decide, by decide, by decide⟩

/-- C3 (amended): a candidate is rejected iff it intersects some previously
ATTEMPTED candidate (accepted or rejected — `rooms` records them all); on
rejection nothing is carved and nothing is populated, and the attempt loop
continues: only the candidate list and the RNG advance. -/
theorem C3_rejection_skips_carving (st : GenState)
    (hinv : st.rooms.any
      (fun other_room => (sample_room st.rng).1.intersects_with other_room)
        = true) :
    (make_map_step st).map = st.map ∧
    (make_map_step st).objects = st.objects ∧
    (make_map_step st).rooms = st.rooms ++ [(sample_room st.rng).1] := by
  unfold make_map_step
  simp [hinv]

/-- Concrete generator state for the `C3_rejection_skips_carving` witness:
the zero stream's candidate `(0,0,6,6)` collides with the recorded
candidate. -/
def stW3 : GenState :=
  { map := [], rooms := [Rect.new 0 0 6 6], objects := [], rng := streamOf [] }

/-- Witness for `C3_rejection_skips_carving` at `stW3`. -/
theorem C3_rejection_skips_carving_witness :
    (make_map_step stW3).map = stW3.map ∧
    (make_map_step stW3).objects = stW3.objects ∧
    (make_map_step stW3).rooms = stW3.rooms ++ [(sample_room stW3.rng).1] :=
  C3_rejection_skips_carving stW3 (by decide)

set_option maxRecDepth 400000 in
/-- C7: the claim says that after generation no tile holds two blocking,
alive occupants and no monster sits on the player's start.  With stream C
the first room's single monster is sampled exactly at the room center
`(4,4)` — `place_objects` runs BEFORE the player's start is written — and
the player is then placed on top of it: both occupants are blocking, alive,
and share `(4,4)`. -/
theorem C7_counterexample :
    (make_map initial_objects streamC).objects.length = 2 ∧
    ((make_map initial_objects streamC).objects.getD 0 defaultObject).pos
        = (4, 4) ∧
    ((make_map initial_objects streamC).objects.getD 1 defaultObject).pos
        = (4, 4) ∧
    ((make_map initial_objects streamC).objects.getD 0 defaultObject).blocks
        = true ∧
    ((make_map initial_objects streamC).objects.getD 0 defaultObject).alive
        = true ∧
    ((make_map initial_objects streamC).objects.getD 1 defaultObject).blocks
        = true ∧
    ((make_map initial_objects streamC).objects.getD 1 defaultObject).alive
        = true := by
  exact ⟨by decide, by decide, by decide, by decide, by decide, by decide,
    by decide⟩

/-- No two blocking occupants share a square. -/
def noDupBlockers (objects : List Object) : Prop :=
  objects.Pairwise fun a b => a.blocks = true → b.blocks = true → a.pos ≠ b.pos

theorem place_loop_inv (room : Rect) (map : Map) :
    ∀ (fuel : Nat) (objects : List Object) (s : RngState),
      noDupBlockers objects →
      noDupBlockers (place_loop room map fuel objects s).1 ∧
      ∀ o ∈ (place_loop room map fuel objects s).1,
        o ∈ objects ∨ (tileAt map o.x o.y).blocked = false := by
  intro fuel
  induction fuel with
  | zero =>
    intro objects s h
    exact ⟨h, fun o ho => Or.inl ho⟩
  | succ n ih =>
    intro objects s h
    simp only [place_loop]
    split
    · rename_i hfree
      rw [Bool.not_eq_true', is_blocked_eq_false_iff] at hfree
      obtain ⟨htile, hnoobj⟩ := hfree
      set x := (gen_range (room.x1 + 1) room.x2 s).1 with hxdef
      set ys := gen_range (room.y1 + 1) room.y2 (gen_range (room.x1 + 1) room.x2 s).2
        with hysdef
      set ks := gen_chance80 ys.2 with hksdef
      set monster := (if ks.1 then mk_orc x ys.1 else mk_vampire x ys.1) with hmdef
      have hmpos : monster.pos = (x, ys.1) := by
        rw [hmdef]; split <;> rfl
      have hmx : monster.x = x := by
        rw [hmdef]; split <;> rfl
      have hmy : monster.y = ys.1 := by
        rw [hmdef]; split <;> rfl
      have hnd : noDupBlockers (objects ++ [monster]) := by
        rw [noDupBlockers, List.pairwise_append]
        refine ⟨h, List.pairwise_singleton _ _, ?_⟩
        intro a ha b hb
        rw [List.mem_singleton] at hb
        subst hb
        intro hab _
        rw [hmpos]
        intro hcon
        exact hnoobj a ha ⟨hab, hcon⟩
      have IH := ih (objects ++ [monster]) ks.2 hnd
      refine ⟨IH.1, fun o ho => ?_⟩
      rcases IH.2 o ho with hin | hfl
      · rcases List.mem_append.mp hin with h1 | h2
        · exact Or.inl h1
        · rw [List.mem_singleton] at h2
          subst h2
          right
          rw [hmx, hmy]
          exact htile
      · exact Or.inr hfl
    · exact ih objects _ h

/-- C7 (amended): monster placement is sound with respect to the state it
runs in — it never spawns a monster on a blocked tile nor on a square
already holding a blocking occupant, so distinct blocking occupants keep
distinct squares THROUGHOUT `place_objects`.  (The violated remainder of
the claim is the player's start: it is written after the first room's
monsters exist, so a monster may share it — see `C7_counterexample`.) -/
theorem C7_place_objects_no_collision (room : Rect) (map : Map)
    (objects : List Object) (s : RngState) (h : noDupBlockers objects) :
    noDupBlockers (place_objects room map objects s).1 ∧
    ∀ o ∈ (place_objects room map objects s).1,
      o ∈ objects ∨ (tileAt map o.x o.y).blocked = false := by
  unfold place_objects
  exact place_loop_inv room map _ objects _ h

/-- Witness for `C7_place_objects_no_collision` on the first room with the
player already present. -/
theorem C7_place_objects_no_collision_witness :
    noDupBlockers
      (place_objects (Rect.new 1 1 6 6) cmap5 initial_objects (streamOf [])).1 ∧
    ∀ o ∈ (place_objects (Rect.new 1 1 6 6) cmap5 initial_objects
        (streamOf [])).1,
      o ∈ initial_objects ∨ (tileAt cmap5 o.x o.y).blocked = false :=
  C7_place_objects_no_collision _ _ _ _
    (by unfold noDupBlockers initial_objects; exact List.pairwise_singleton _ _)

/-! ## Explored memory (`render_all`'s tile loop) -/

/-- One column of the explored-update pass of `render_all`'s tile loop:
`if is_visible { *is_explored = true; }` at each square. -/
def exploreCol (vis : Nat → Nat → Bool) (x : Nat) : Nat → List Tile → List Tile
  | _, [] => []
  | y, t :: ts =>
    (if vis x y then { t with explored := true } else t) ::
      exploreCol vis x (y + 1) ts

def exploreCols (vis : Nat → Nat → Bool) : Nat → Map → Map
  | _, [] => []
  | x, col :: cols => exploreCol vis x 0 col :: exploreCols vis (x + 1) cols

/-- The state effect of `render_all` on the map (lines 310–331): every
square the FOV query reports visible gets `explored := true`; no square is
ever cleared.  The visibility predicate `vis` abstracts
`tcod.fov.is_in_fov`, which lives in the external tcod library, and the
drawing calls have no effect on core state. -/
def render_all_explored (vis : Nat → Nat → Bool) (map : Map) : Map :=
  exploreCols vis 0 map

theorem exploreCol_getD (vis : Nat → Nat → Bool) (x : Nat) :
    ∀ (ts : List Tile) (y0 i : Nat), i < ts.length →
      (exploreCol vis x y0 ts).getD i Tile.wall =
        (if vis x (y0 + i) then { ts.getD i Tile.wall with explored := true }
         else ts.getD i Tile.wall)
  | [], _, i, h => by simp at h
  | t :: ts, y0, 0, _ => by simp [exploreCol]
  | t :: ts, y0, i + 1, h => by
    have hrec := exploreCol_getD vis x ts (y0 + 1) i (by simpa using h)
    simp only [exploreCol, List.getD_cons_succ]
    rw [hrec]
    have harith : y0 + 1 + i = y0 + (i + 1) := by omega
    rw [harith]

theorem exploreCols_getD (vis : Nat → Nat → Bool) :
    ∀ (m : Map) (x0 n : Nat), n < m.length →
      (exploreCols vis x0 m).getD n [] = exploreCol vis (x0 + n) 0 (m.getD n [])
  | [], _, n, h => by simp at h
  | col :: cols, x0, 0, _ => by simp [exploreCols]
  | col :: cols, x0, n + 1, h => by
    have hrec := exploreCols_getD vis cols (x0 + 1) n (by simpa using h)
    simp only [exploreCols, List.getD_cons_succ]
    rw [hrec]
    have harith : x0 + 1 + n = x0 + (n + 1) := by omega
    rw [harith]

/-- C9: the explored flag starts false on both tile kinds, is set exactly
when a recompute finds the square visible, and is monotonic — once true it
stays true across any further recompute, whatever the current visibility. -/
theorem C9_explored_monotonic (vis : Nat → Nat → Bool) (map : Map) (x y : Int)
    (hx : x.toNat < map.length) (hy : y.toNat < (map.getD x.toNat []).length) :
    Tile.empty.explored = false ∧ Tile.wall.explored = false ∧
    (vis x.toNat y.toNat = true →
      (tileAt (render_all_explored vis map) x y).explored = true) ∧
    ((tileAt map x y).explored = true →
      (tileAt (render_all_explored vis map) x y).explored = true) := by
  have hcols := exploreCols_getD vis map 0 x.toNat hx
  have hcol := exploreCol_getD vis (0 + x.toNat) (map.getD x.toNat []) 0 y.toNat hy
  refine ⟨rfl, rfl, ?_, ?_⟩ <;> intro h <;>
    unfold tileAt render_all_explored <;>
    rw [hcols, hcol] <;>
    simp only [Nat.zero_add] at *
  · rw [h]
    rfl
  · split
    · rfl
    · unfold tileAt at h
      exact h

/-- Witness for `C9_explored_monotonic` on a one-square map under an
all-visible recompute. -/
theorem C9_explored_monotonic_witness :
    Tile.empty.explored = false ∧ Tile.wall.explored = false ∧
    ((fun _ _ => true : Nat → Nat → Bool) (0 : Int).toNat (0 : Int).toNat = true →
      (tileAt (render_all_explored (fun _ _ => true) [[Tile.empty]]) 0 0).explored
        = true) ∧
    ((tileAt ([[Tile.empty]] : Map) 0 0).explored = true →
      (tileAt (render_all_explored (fun _ _ => true) [[Tile.empty]]) 0 0).explored
        = true) :=
  C9_explored_monotonic (fun _ _ => true) [[Tile.empty]] 0 0 (by decide) (by decide)

end Roguelike
